import Mathlib

/-!
Shallow embedding of the OPCVM simulator's Next.js client
(src/client of the repository) in Lean 4, together with theorems
settling the specification's claims about it.

Numbers of the TypeScript source (IEEE doubles) are modelled as
rationals; JSON values as an inductive `Json` type; React component
state as an explicit record with the `useState` setters as events of a
step function.
-/

namespace Opcvm

/-- The two simulation modes (`SimulationType` in src/client/src/types/simulation.ts). -/
inductive SimulationType where
  | deterministic
  | monteCarlo
deriving DecidableEq, Repr

/-- `percentiles` sub-object of `SimulationResult` (simulation.ts lines 17-21). -/
structure Percentiles where
  p5 : ℚ
  p50 : ℚ
  p95 : ℚ
deriving DecidableEq, Repr

/-- `risk_metrics` sub-object of `SimulationResult` (simulation.ts lines 23-29). -/
structure RiskMetrics where
  annualized_vol : ℚ
  sharpe : ℚ
  sortino : ℚ
  max_drawdown_mean : ℚ
  calmar : ℚ
deriving DecidableEq, Repr

/-- One point of the trajectory array (simulation.ts line 13). -/
structure TrajectoryPoint where
  month : ℚ
  value : ℚ
deriving DecidableEq, Repr

/-- The `SimulationResult` interface of src/client/src/types/simulation.ts,
field for field; optional TS fields become `Option`. -/
structure SimulationResult where
  fund_name : String
  category : String
  assumed_annual_return : ℚ
  years : ℚ
  gross_final_value : ℚ
  net_final_value : ℚ
  net_profit_after_tax : ℚ
  tax_paid : ℚ
  total_contributed : ℚ
  trajectory : Option (List TrajectoryPoint)
  assumed_annual_vol : Option ℚ
  n_paths : Option ℚ
  percentiles : Option Percentiles
  prob_loss : Option ℚ
  risk_metrics : Option RiskMetrics
deriving DecidableEq, Repr

/-- The static `FUNDS` catalog list of
src/client/src/components/simulation/SimulationInputs.tsx (lines 22-34). -/
def FUNDS : List String :=
  [ "ATTIJARI ACTIONS"
  , "ATTIJARI AL MOUCHARAKA"
  , "ATTIJARI DIVIDEND FUND"
  , "ATTIJARI PATRIMOINE VALEURS"
  , "FCP ATTIJARI GOLD"
  , "ATTIJARI DIVERSIFIE"
  , "ATTIJARI PATRIMOINE DIVERSIFIE"
  , "WG OBLIGATIONS"
  , "ATTIJARI PATRIMOINE TAUX"
  , "PATRIMOINE OBLIGATIONS"
  , "ATTIJARI MONETAIRE PLUS" ]

/-- State of the `Home` component (the `useState` hooks of
src/client/src/types/simulation.ts, Home, lines 42-51). -/
structure HomeState where
  fund : String
  initial : ℚ
  monthly : ℚ
  years : ℚ
  fee : ℚ
  nPaths : ℚ
  result : Option SimulationResult
  simulationType : SimulationType
  loading : Bool
deriving DecidableEq, Repr

/-- The initial `Home` state: the `useState` defaults. -/
def initState : HomeState :=
  { fund := "ATTIJARI ACTIONS"
  , initial := 100000
  , monthly := 3000
  , years := 5
  , fee := 18/1000
  , nPaths := 5000
  , result := none
  , simulationType := SimulationType.deterministic
  , loading := false }

/-- Value delivered by a Radix slider configured with given min, max and
step: the thumb snaps to `min + k*step` and is clamped at `max`
(SimulationInputs.tsx `Slider` elements). -/
def sliderVal (mn mx step : ℚ) (k : ℕ) : ℚ :=
  min (mn + (k : ℚ) * step) mx

/-- JS `Number(x.toFixed(3))`: round to three decimal places
(applied to the fee slider value, SimulationInputs.tsx line 188). -/
def toFixed3 (q : ℚ) : ℚ :=
  (round (q * 1000) : ℚ) / 1000

/-- `handleSimulationTypeChange` of the `Home` component
(simulation.ts lines 106-109): store the new type and clear the result. -/
def handleSimulationTypeChange (s : HomeState) (t : SimulationType) : HomeState :=
  { s with simulationType := t, result := none }

/-- The user-interface events that can update the `Home` state, one per
setter wired in SimulationInputs.tsx / the Home component. Slider events
carry the step count `k`; the fund select only offers the `FUNDS`
options, modelled by an index into that list. -/
inductive Ev where
  | setFund (i : ℕ)
  | setInitial (q : ℚ)
  | setMonthly (q : ℚ)
  | setYears (k : ℕ)
  | setFee (k : ℕ)
  | setNPaths (k : ℕ)
  | switchType (t : SimulationType)
  | startSimulation
  | receiveResult (r : SimulationResult)
deriving Repr

/-- One state update of the client, interpreting each event exactly as the
corresponding handler in the source does. -/
def step (s : HomeState) : Ev → HomeState
  | Ev.setFund i => { s with fund := FUNDS.getD i "ATTIJARI ACTIONS" }
  | Ev.setInitial q => { s with initial := q }
  | Ev.setMonthly q => { s with monthly := q }
  | Ev.setYears k => { s with years := sliderVal 1 30 1 k }
  | Ev.setFee k => { s with fee := toFixed3 (sliderVal 0 (5/100) (1/1000) k) }
  | Ev.setNPaths k => { s with nPaths := sliderVal 1000 10000 500 k }
  | Ev.switchType t => handleSimulationTypeChange s t
  | Ev.startSimulation => { s with loading := true }
  | Ev.receiveResult r => { s with result := some r, loading := false }

/-- The client state after a sequence of events from the defaults. -/
def run (evs : List Ev) : HomeState :=
  evs.foldl step initState

/-- `totalContributed` as the `Home` component computes it
(simulation.ts lines 72-75): `initial + monthly * years * 12`. -/
def totalContributed (s : HomeState) : ℚ :=
  s.initial + s.monthly * s.years * 12

/-- The endpoint `runSimulation` posts to (simulation.ts lines 80-83). -/
def endpoint (t : SimulationType) : String :=
  match t with
  | SimulationType.deterministic => "/api/simulate"
  | SimulationType.monteCarlo => "/api/mc-simulate"

/-- The JSON body `runSimulation` builds (simulation.ts lines 85-92);
`n_paths` is spread in only in monte-carlo mode. -/
structure RequestBody where
  fund_name : String
  initial_amount : ℚ
  monthly_contribution : ℚ
  years : ℚ
  annual_fee : ℚ
  n_paths : Option ℚ
deriving DecidableEq, Repr

/-- Construct the request body from the current state, as
`runSimulation` does. -/
def requestBody (s : HomeState) : RequestBody :=
  { fund_name := s.fund
  , initial_amount := s.initial
  , monthly_contribution := s.monthly
  , years := s.years
  , annual_fee := s.fee
  , n_paths :=
      if s.simulationType = SimulationType.monteCarlo then some s.nPaths else none }

/-- `runSimulation`'s outgoing POST: the endpoint chosen by mode together
with the request body. -/
def runSimulationPost (s : HomeState) : String × RequestBody :=
  (endpoint s.simulationType, requestBody s)

/-- `ProjectionChart` (ProjectionChart.tsx lines 31-34) renders nothing
unless a result is present and the selected type is deterministic. -/
def projectionChartRendered (result : Option SimulationResult)
    (t : SimulationType) : Bool :=
  match result, t with
  | some _, SimulationType.deterministic => true
  | _, _ => false

/-- What the `SimulationResults` card shows in its body. -/
inductive ResultsBody where
  | placeholder
  | deterministicCards
  | monteCarloCards
deriving DecidableEq, Repr

/-- The branch `SimulationResults` takes (SimulationResults.tsx lines
27-45 and 64-68): placeholder without a result, otherwise the
deterministic cards or the Monte-Carlo cards by selected type. -/
def simulationResultsBody (result : Option SimulationResult)
    (t : SimulationType) : ResultsBody :=
  match result with
  | none => ResultsBody.placeholder
  | some _ =>
      match t with
      | SimulationType.deterministic => ResultsBody.deterministicCards
      | SimulationType.monteCarlo => ResultsBody.monteCarloCards

/-- JSON values, for the API route's body and response. -/
inductive Json where
  | null
  | bool (b : Bool)
  | num (q : ℚ)
  | str (s : String)
  | arr (elements : List Json)
  | obj (fields : List (String × Json))

/-- An outgoing HTTP POST: target URL and JSON body. -/
structure HttpPost where
  url : String
  body : Json

/-- The `POST` handler of src/client/src/app/api/mc-simulate/route.ts:
read the request body, fetch the backend with it, return the backend's
JSON response. The backend is a parameter (a function from posts to
responses); the handler returns both the post it made and the response
it relayed. -/
def mcSimulateRoutePOST (backend : HttpPost → Json) (body : Json) :
    HttpPost × Json :=
  let post : HttpPost := { url := "http://localhost:8000/mc-simulate", body := body }
  let data : Json := backend post
  (post, data)

/-- A simulation result as `SimulationResults` actually receives it: the
component types `result` as `any`, so every field it reads may be absent
at runtime. -/
structure LooseResult where
  category : Option String
  assumed_annual_return : Option ℚ
  net_final_value : Option ℚ
  net_profit_after_tax : Option ℚ
  tax_paid : Option ℚ
  assumed_annual_vol : Option ℚ
  percentiles : Option Percentiles
  prob_loss : Option ℚ
  risk_metrics : Option RiskMetrics
  trajectory : Option (List TrajectoryPoint)
deriving DecidableEq, Repr

/-- `x || 0` on a possibly-absent number: absent yields 0
(and a present 0 also yields 0, as in JS). -/
def orZero (x : Option ℚ) : ℚ :=
  x.getD 0

/-- Figures shown by `DeterministicResults`
(SimulationResults.tsx lines 75-112), each guarded with `|| 0`. -/
def deterministicCardFigures (r : LooseResult) : ℚ × ℚ × ℚ :=
  (orZero r.assumed_annual_return, orZero r.net_final_value,
   orZero r.net_profit_after_tax)

/-- The tax-paid figure of `DeterministicResults` (line 107). -/
def taxPaidFigure (r : LooseResult) : ℚ :=
  orZero r.tax_paid

/-- The figures of the Monte-Carlo result card, one per rendered cell. -/
structure McCardFigures where
  annualReturn : ℚ
  annualVol : ℚ
  p5 : ℚ
  p50 : ℚ
  p95 : ℚ
  probLoss : ℚ
  sharpe : ℚ
deriving DecidableEq, Repr

/-- Figures shown by `MonteCarloResults`
(SimulationResults.tsx lines 114-180): annual return, annual volatility,
`percentiles?.p5/p50/p95 || 0`, probability of loss, and
`risk_metrics?.sharpe || 0`. -/
def monteCarloCardFigures (r : LooseResult) : McCardFigures :=
  { annualReturn := orZero r.assumed_annual_return
  , annualVol := orZero r.assumed_annual_vol
  , p5 := orZero (r.percentiles.map Percentiles.p5)
  , p50 := orZero (r.percentiles.map Percentiles.p50)
  , p95 := orZero (r.percentiles.map Percentiles.p95)
  , probLoss := orZero r.prob_loss
  , sharpe := orZero (r.risk_metrics.map RiskMetrics.sharpe) }

/-- The data series `ProjectionChart` feeds the line chart
(ProjectionChart.tsx line 45): `result?.trajectory ?? []`. -/
def chartData (trajectory : Option (List TrajectoryPoint)) :
    List TrajectoryPoint :=
  trajectory.getD []

/-- Clamped access into a list: index capped at the last position
(out-of-range reads cannot occur for in-range percentile ranks; the cap
only matters at the very top rank). -/
def nthc (s : List ℚ) (i : ℕ) : ℚ :=
  s.getD (min i (s.length - 1)) 0

/-- Modelled from the spec: linear interpolation of a sorted sample `s`
at a fractional rank `h`, between the order statistics at `⌊h⌋` and
`⌊h⌋ + 1`. -/
def interp (s : List ℚ) (h : ℚ) : ℚ :=
  let i : ℕ := (⌊h⌋).toNat
  nthc s i + (h - (i : ℚ)) * (nthc s (i + 1) - nthc s i)

/-- Modelled from the spec: the repository's Python backend
(RiskMetricsAggregator, §4.4) is not under src/; the spec fixes
percentiles as "computed over the cross-path distribution of post-tax
net final values using linear interpolation between order statistics
(standard percentile definition)". Given the list of per-path final
values and a fraction `p` in `[0,1]`: sort ascending and interpolate at
rank `h = p * (n - 1)`. -/
def percentile (xs : List ℚ) (p : ℚ) : ℚ :=
  let s := List.insertionSort (· ≤ ·) xs
  if s.length = 0 then 0
  else interp s (p * ((s.length : ℚ) - 1))

/-- Modelled from the spec: the percentile block of the Monte Carlo
result, `{p5, p50, p95}` over the per-path post-tax final values. -/
def mcPercentiles (finals : List ℚ) : Percentiles :=
  { p5 := percentile finals (5/100)
  , p50 := percentile finals (50/100)
  , p95 := percentile finals (95/100) }

section Theorems

/-- C1: for every initial amount, monthly contribution and horizon held in
the client state, the total-contributed value the `Home` component computes
and hands to `SimulationInputs` for display equals
`initial + monthly * years * 12`, and switching the simulation mode leaves
it unchanged. -/
theorem C1_totalContributed (s : HomeState) (t : SimulationType) :
    totalContributed s = s.initial + s.monthly * s.years * 12 ∧
    totalContributed (handleSimulationTypeChange s t) = totalContributed s :=
  ⟨rfl, rfl⟩

/-- C2: with a result present, the projection chart is rendered exactly in
deterministic mode and never in monte-carlo mode, and the results card
shows the deterministic figures exactly in deterministic mode and the
percentile/risk cards exactly in monte-carlo mode. -/
theorem C2_render_by_mode (r : SimulationResult) :
    projectionChartRendered (some r) SimulationType.deterministic = true ∧
    projectionChartRendered (some r) SimulationType.monteCarlo = false ∧
    simulationResultsBody (some r) SimulationType.deterministic =
      ResultsBody.deterministicCards ∧
    simulationResultsBody (some r) SimulationType.monteCarlo =
      ResultsBody.monteCarloCards :=
  ⟨rfl, rfl, rfl, rfl⟩

/-- C3: deterministic mode posts to `/api/simulate` with no `n_paths`
field; monte-carlo mode posts to `/api/mc-simulate` with `n_paths`
included; the five remaining body fields are the same expressions of the
state in both modes. -/
theorem C3_request_shape (s : HomeState) :
    runSimulationPost { s with simulationType := SimulationType.deterministic } =
      ("/api/simulate",
        { fund_name := s.fund
        , initial_amount := s.initial
        , monthly_contribution := s.monthly
        , years := s.years
        , annual_fee := s.fee
        , n_paths := none }) ∧
    runSimulationPost { s with simulationType := SimulationType.monteCarlo } =
      ("/api/mc-simulate",
        { fund_name := s.fund
        , initial_amount := s.initial
        , monthly_contribution := s.monthly
        , years := s.years
        , annual_fee := s.fee
        , n_paths := some s.nPaths }) :=
  ⟨rfl, rfl⟩

/-- C8: the mc-simulate API route forwards the received JSON body
unchanged to `http://localhost:8000/mc-simulate` and returns the
backend's JSON response unchanged, whatever the backend replies. -/
theorem C8_mc_route_passthrough (backend : HttpPost → Json) (body : Json) :
    mcSimulateRoutePOST backend body =
      ({ url := "http://localhost:8000/mc-simulate", body := body },
       backend { url := "http://localhost:8000/mc-simulate", body := body }) :=
  rfl

/-- C9: switching the simulation type clears the stored result (so
neither the results card nor the chart renders anything produced under
the previous mode) and leaves every input field unchanged. -/
theorem C9_type_switch_frame (s : HomeState) (t : SimulationType) :
    (handleSimulationTypeChange s t).result = none ∧
    (handleSimulationTypeChange s t).simulationType = t ∧
    (handleSimulationTypeChange s t).fund = s.fund ∧
    (handleSimulationTypeChange s t).initial = s.initial ∧
    (handleSimulationTypeChange s t).monthly = s.monthly ∧
    (handleSimulationTypeChange s t).years = s.years ∧
    (handleSimulationTypeChange s t).fee = s.fee ∧
    (handleSimulationTypeChange s t).nPaths = s.nPaths ∧
    projectionChartRendered (handleSimulationTypeChange s t).result t = false ∧
    simulationResultsBody (handleSimulationTypeChange s t).result t =
      ResultsBody.placeholder := by
  cases t <;>
    exact ⟨rfl, rfl, rfl, rfl, rfl, rfl, rfl, rfl, rfl, rfl⟩

/-- C10: rendering a result is total on arbitrary (`any`-typed) result
objects: every absent numeric field is displayed as 0 thanks to the
`|| 0` guards, and an absent trajectory feeds the chart an empty series. -/
theorem C10_render_total_missing_as_zero (r : LooseResult) :
    (r.assumed_annual_return = none →
      (deterministicCardFigures r).1 = 0 ∧
      (monteCarloCardFigures r).annualReturn = 0) ∧
    (r.net_final_value = none → (deterministicCardFigures r).2.1 = 0) ∧
    (r.net_profit_after_tax = none → (deterministicCardFigures r).2.2 = 0) ∧
    (r.tax_paid = none → taxPaidFigure r = 0) ∧
    (r.assumed_annual_vol = none → (monteCarloCardFigures r).annualVol = 0) ∧
    (r.percentiles = none →
      (monteCarloCardFigures r).p5 = 0 ∧
      (monteCarloCardFigures r).p50 = 0 ∧
      (monteCarloCardFigures r).p95 = 0) ∧
    (r.prob_loss = none → (monteCarloCardFigures r).probLoss = 0) ∧
    (r.risk_metrics = none → (monteCarloCardFigures r).sharpe = 0) ∧
    (r.trajectory = none → chartData r.trajectory = []) := by
  refine ⟨?_, ?_, ?_, ?_, ?_, ?_, ?_, ?_, ?_⟩ <;> intro hh <;>
    simp [deterministicCardFigures, monteCarloCardFigures, taxPaidFigure,
      chartData, orZero, hh]

/-- C6: the `SimulationResult` structure is exactly the listed fields:
two results are equal precisely when they agree on fund name, category,
assumed annual return, years, gross final value, net final value, net
profit after tax, tax paid, total contributed, the optional trajectory
and the optional Monte-Carlo block (volatility, path count, percentiles
p5/p50/p95, probability of loss, risk metrics with annualized
volatility, Sharpe, Sortino, mean max drawdown and Calmar). -/
theorem C6_result_shape :
    (∀ a b : SimulationResult, a = b ↔
      (a.fund_name = b.fund_name ∧ a.category = b.category ∧
       a.assumed_annual_return = b.assumed_annual_return ∧
       a.years = b.years ∧
       a.gross_final_value = b.gross_final_value ∧
       a.net_final_value = b.net_final_value ∧
       a.net_profit_after_tax = b.net_profit_after_tax ∧
       a.tax_paid = b.tax_paid ∧
       a.total_contributed = b.total_contributed ∧
       a.trajectory = b.trajectory ∧
       a.assumed_annual_vol = b.assumed_annual_vol ∧
       a.n_paths = b.n_paths ∧
       a.percentiles = b.percentiles ∧
       a.prob_loss = b.prob_loss ∧
       a.risk_metrics = b.risk_metrics)) ∧
    (∀ p q : Percentiles, p = q ↔
      (p.p5 = q.p5 ∧ p.p50 = q.p50 ∧ p.p95 = q.p95)) ∧
    (∀ m k : RiskMetrics, m = k ↔
      (m.annualized_vol = k.annualized_vol ∧ m.sharpe = k.sharpe ∧
       m.sortino = k.sortino ∧ m.max_drawdown_mean = k.max_drawdown_mean ∧
       m.calmar = k.calmar)) := by
  refine ⟨fun a b => ?_, fun p q => ?_, fun m k => ?_⟩
  · cases a
    cases b
    simp
  · cases p
    cases q
    simp
  · cases m
    cases k
    simp

/-- C5 counterexample: with the default state and an initial amount of
-100 entered, the client stores -100 and its outgoing POST still carries
`initial_amount = -100` to `/api/simulate`: no rejection of the negative
value happens anywhere in the client before the engine is invoked. -/
theorem C5_counterexample :
    (step initState (Ev.setInitial (-100))).initial = -100 ∧
    runSimulationPost (step initState (Ev.setInitial (-100))) =
      ("/api/simulate",
        { fund_name := "ATTIJARI ACTIONS"
        , initial_amount := -100
        , monthly_contribution := 3000
        , years := 5
        , annual_fee := 18/1000
        , n_paths := none }) :=
  ⟨rfl, rfl⟩

/-- C5 (amended): the client neither rejects nor clamps a negative
initial amount or monthly contribution; the entered value is stored and
forwarded unchanged in the request body, so any InvalidParameter
rejection can only happen in the backend. -/
theorem C5_negative_amounts_forwarded (s : HomeState) (q : ℚ) (_hneg : q < 0) :
    (step s (Ev.setInitial q)).initial = q ∧
    (requestBody (step s (Ev.setInitial q))).initial_amount = q ∧
    (step s (Ev.setMonthly q)).monthly = q ∧
    (requestBody (step s (Ev.setMonthly q))).monthly_contribution = q :=
  ⟨rfl, rfl, rfl, rfl⟩

/-- Witness for C5 (amended) at the concrete negative amount -100. -/
theorem C5_negative_amounts_forwarded_witness :
    (step initState (Ev.setInitial (-100))).initial = -100 ∧
    (requestBody (step initState (Ev.setInitial (-100)))).initial_amount = -100 ∧
    (step initState (Ev.setMonthly (-100))).monthly = -100 ∧
    (requestBody (step initState (Ev.setMonthly (-100)))).monthly_contribution = -100 :=
  C5_negative_amounts_forwarded initState (-100) (by norm_num)

/-- Any index into the fund select yields an entry of the catalog (the
select only offers the eleven `FUNDS` options). -/
theorem mem_getD_FUNDS (i : ℕ) : FUNDS.getD i "ATTIJARI ACTIONS" ∈ FUNDS := by
  by_cases hlt : i < FUNDS.length
  · rw [List.getD_eq_getElem _ _ hlt]
    exact List.getElem_mem hlt
  · rw [List.getD_eq_default _ _ (Nat.le_of_not_lt hlt)]
    decide

/-- The years slider's value is a whole number of years clamped to 1..30. -/
theorem sliderVal_years (k : ℕ) :
    sliderVal 1 30 1 k = ((min (1 + k) 30 : ℕ) : ℚ) := by
  rw [sliderVal, Nat.cast_min]
  push_cast
  ring_nf

/-- The fee slider's value is a whole number of thousandths capped at 50. -/
theorem sliderVal_fee (k : ℕ) :
    sliderVal 0 (5/100) (1/1000) k = ((min k 50 : ℕ) : ℚ) / 1000 := by
  rw [sliderVal, Nat.cast_min, ← min_div_div_right (by norm_num : (0:ℚ) ≤ 1000),
    zero_add, mul_one_div]
  norm_num

/-- Rounding to three decimals is the identity on whole thousandths. -/
theorem toFixed3_thousandths (m : ℕ) :
    toFixed3 ((m : ℚ) / 1000) = (m : ℚ) / 1000 := by
  rw [toFixed3, div_mul_cancel₀ _ (by norm_num : (1000:ℚ) ≠ 0), round_natCast]
  push_cast
  ring

/-- The input-control invariant of the client state: the fund is from the
catalog, years is a whole number in 1..30, the fee lies in 0..0.05 and the
path count in 1000..10000. -/
def ValidInputs (s : HomeState) : Prop :=
  s.fund ∈ FUNDS ∧
  (∃ n : ℕ, s.years = (n : ℚ) ∧ 1 ≤ n ∧ n ≤ 30) ∧
  0 ≤ s.fee ∧ s.fee ≤ 5/100 ∧
  1000 ≤ s.nPaths ∧ s.nPaths ≤ 10000

/-- The `useState` defaults satisfy the input-control invariant. -/
theorem validInputs_initState : ValidInputs initState :=
  ⟨by decide, ⟨5, rfl, by norm_num, by norm_num⟩,
    by norm_num [initState], by norm_num [initState],
    by norm_num [initState], by norm_num [initState]⟩

/-- Every input-control event preserves the invariant. -/
theorem validInputs_step (s : HomeState) (e : Ev) (hv : ValidInputs s) :
    ValidInputs (step s e) := by
  obtain ⟨hf, hy, hfe0, hfe1, hn0, hn1⟩ := hv
  cases e with
  | setFund i => exact ⟨mem_getD_FUNDS i, hy, hfe0, hfe1, hn0, hn1⟩
  | setInitial q => exact ⟨hf, hy, hfe0, hfe1, hn0, hn1⟩
  | setMonthly q => exact ⟨hf, hy, hfe0, hfe1, hn0, hn1⟩
  | setYears k =>
      refine ⟨hf, ⟨min (1 + k) 30, sliderVal_years k, ?_, ?_⟩,
        hfe0, hfe1, hn0, hn1⟩ <;> omega
  | setFee k =>
      have h50 : ((min k 50 : ℕ) : ℚ) ≤ 50 := by
        exact_mod_cast min_le_right k 50
      refine ⟨hf, hy, ?_, ?_, hn0, hn1⟩
      · show (0:ℚ) ≤ toFixed3 (sliderVal 0 (5/100) (1/1000) k)
        rw [sliderVal_fee, toFixed3_thousandths]
        positivity
      · show toFixed3 (sliderVal 0 (5/100) (1/1000) k) ≤ 5/100
        rw [sliderVal_fee, toFixed3_thousandths]
        linarith
  | setNPaths k =>
      refine ⟨hf, hy, hfe0, hfe1, ?_, ?_⟩
      · show (1000:ℚ) ≤ sliderVal 1000 10000 500 k
        rw [sliderVal]
        refine le_min ?_ (by norm_num)
        have hk : (0:ℚ) ≤ (k:ℚ) * 500 := by positivity
        linarith
      · show sliderVal 1000 10000 500 k ≤ 10000
        rw [sliderVal]
        exact min_le_right _ _
  | switchType t => exact ⟨hf, hy, hfe0, hfe1, hn0, hn1⟩
  | startSimulation => exact ⟨hf, hy, hfe0, hfe1, hn0, hn1⟩
  | receiveResult r => exact ⟨hf, hy, hfe0, hfe1, hn0, hn1⟩

/-- The invariant is preserved along any event sequence. -/
theorem validInputs_foldl :
    ∀ (evs : List Ev) (s : HomeState), ValidInputs s →
      ValidInputs (evs.foldl step s)
  | [], _, hv => hv
  | e :: evs, s, hv =>
      validInputs_foldl evs (step s e) (validInputs_step s e hv)

/-- C4: after any sequence of input-control events from the defaults, the
request the client would send has a fund name from the eleven-entry
catalog, a whole number of years between 1 and 30, an annual fee between
0 and 0.05, and, whenever monte-carlo mode is selected, an included path
count between 1000 and 10000. -/
theorem C4_controls_invariant (evs : List Ev) :
    FUNDS.length = 11 ∧
    (requestBody (run evs)).fund_name ∈ FUNDS ∧
    (∃ n : ℕ, (requestBody (run evs)).years = (n : ℚ) ∧ 1 ≤ n ∧ n ≤ 30) ∧
    0 ≤ (requestBody (run evs)).annual_fee ∧
    (requestBody (run evs)).annual_fee ≤ 5/100 ∧
    ((run evs).simulationType = SimulationType.monteCarlo →
      ∃ np : ℚ, (requestBody (run evs)).n_paths = some np ∧
        1000 ≤ np ∧ np ≤ 10000) := by
  obtain ⟨hf, hy, hfe0, hfe1, hn0, hn1⟩ :=
    validInputs_foldl evs initState validInputs_initState
  refine ⟨by decide, hf, hy, hfe0, hfe1,
    fun hmc => ⟨(run evs).nPaths, ?_, hn0, hn1⟩⟩
  simp [requestBody, hmc]

/-- Clamped reads from a sorted list are monotone in the index. -/
theorem nthc_le_nthc {s : List ℚ} (hs : s.Sorted (· ≤ ·)) (hne : s ≠ [])
    {i j : ℕ} (hij : i ≤ j) : nthc s i ≤ nthc s j := by
  have hlen : 0 < s.length := List.length_pos.mpr hne
  have ha : min i (s.length - 1) < s.length := by omega
  have hb : min j (s.length - 1) < s.length := by omega
  have hab : (⟨min i (s.length - 1), ha⟩ : Fin s.length) ≤
      ⟨min j (s.length - 1), hb⟩ := by
    rw [Fin.mk_le_mk]
    omega
  have hrel := List.Sorted.rel_get_of_le hs hab
  rw [nthc, nthc, List.getD_eq_getElem _ _ ha, List.getD_eq_getElem _ _ hb]
  simpa using hrel

/-- For a nonnegative rank, the cast of `⌊h⌋.toNat` is `⌊h⌋` itself. -/
theorem floor_toNat_cast {h : ℚ} (h0 : 0 ≤ h) :
    (((⌊h⌋).toNat : ℕ) : ℚ) = ((⌊h⌋ : ℤ) : ℚ) := by
  exact_mod_cast Int.toNat_of_nonneg (Int.floor_nonneg.mpr h0)

/-- The interpolated value is at least the lower order statistic. -/
theorem nthc_le_interp {s : List ℚ} (hs : s.Sorted (· ≤ ·)) (hne : s ≠ [])
    {h : ℚ} (h0 : 0 ≤ h) : nthc s ((⌊h⌋).toNat) ≤ interp s h := by
  have hfrac : 0 ≤ h - (((⌊h⌋).toNat : ℕ) : ℚ) := by
    rw [floor_toNat_cast h0]
    have := Int.floor_le h
    linarith
  have hstep : 0 ≤ nthc s ((⌊h⌋).toNat + 1) - nthc s ((⌊h⌋).toNat) :=
    sub_nonneg.mpr (nthc_le_nthc hs hne (Nat.le_succ _))
  have := mul_nonneg hfrac hstep
  rw [interp]
  linarith

/-- The interpolated value is at most the upper order statistic. -/
theorem interp_le_nthc {s : List ℚ} (hs : s.Sorted (· ≤ ·)) (hne : s ≠ [])
    {h : ℚ} (h0 : 0 ≤ h) : interp s h ≤ nthc s ((⌊h⌋).toNat + 1) := by
  have hfrac : h - (((⌊h⌋).toNat : ℕ) : ℚ) ≤ 1 := by
    rw [floor_toNat_cast h0]
    have := Int.lt_floor_add_one h
    push_cast at this
    linarith
  have hstep : 0 ≤ nthc s ((⌊h⌋).toNat + 1) - nthc s ((⌊h⌋).toNat) :=
    sub_nonneg.mpr (nthc_le_nthc hs hne (Nat.le_succ _))
  have := mul_le_of_le_one_left hstep hfrac
  rw [interp]
  linarith

/-- Linear interpolation over a sorted sample is monotone in the rank. -/
theorem interp_mono {s : List ℚ} (hs : s.Sorted (· ≤ ·)) (hne : s ≠ [])
    {h1 h2 : ℚ} (h0 : 0 ≤ h1) (h12 : h1 ≤ h2) : interp s h1 ≤ interp s h2 := by
  have h02 : 0 ≤ h2 := le_trans h0 h12
  have hi12 : (⌊h1⌋).toNat ≤ (⌊h2⌋).toNat :=
    Int.toNat_le_toNat (Int.floor_le_floor h12)
  rcases Nat.eq_or_lt_of_le hi12 with heq | hlt
  · have hstep : 0 ≤ nthc s ((⌊h1⌋).toNat + 1) - nthc s ((⌊h1⌋).toNat) :=
      sub_nonneg.mpr (nthc_le_nthc hs hne (Nat.le_succ _))
    have hmul := mul_le_mul_of_nonneg_right (by linarith : h1 - (((⌊h1⌋).toNat : ℕ) : ℚ) ≤ h2 - (((⌊h1⌋).toNat : ℕ) : ℚ)) hstep
    rw [interp, interp, ← heq]
    linarith
  · calc interp s h1 ≤ nthc s ((⌊h1⌋).toNat + 1) := interp_le_nthc hs hne h0
      _ ≤ nthc s ((⌊h2⌋).toNat) := nthc_le_nthc hs hne hlt
      _ ≤ interp s h2 := nthc_le_interp hs hne h02

/-- The spec-modelled percentile is monotone in the requested fraction. -/
theorem percentile_mono (xs : List ℚ) {p q : ℚ} (hp : 0 ≤ p) (hpq : p ≤ q) :
    percentile xs p ≤ percentile xs q := by
  simp only [percentile]
  by_cases h0 : (List.insertionSort (· ≤ ·) xs).length = 0
  · simp [h0]
  · rw [if_neg h0, if_neg h0]
    have hs := List.sorted_insertionSort (· ≤ ·) xs
    have hne : List.insertionSort (· ≤ ·) xs ≠ [] := by
      intro hnil
      exact h0 (by rw [hnil]; rfl)
    have hn1 : (0:ℚ) ≤ ((List.insertionSort (· ≤ ·) xs).length : ℚ) - 1 := by
      have h1 : 1 ≤ (List.insertionSort (· ≤ ·) xs).length :=
        Nat.one_le_iff_ne_zero.mpr h0
      have h1q : (1:ℚ) ≤ ((List.insertionSort (· ≤ ·) xs).length : ℚ) := by
        exact_mod_cast h1
      linarith
    exact interp_mono hs hne (mul_nonneg hp hn1)
      (mul_le_mul_of_nonneg_right hpq hn1)

/-- C7: for every list of per-path final values, the reported Monte Carlo
percentiles satisfy p5 ≤ p50 ≤ p95. -/
theorem C7_percentiles_ordered (finals : List ℚ) :
    (mcPercentiles finals).p5 ≤ (mcPercentiles finals).p50 ∧
    (mcPercentiles finals).p50 ≤ (mcPercentiles finals).p95 :=
  ⟨percentile_mono finals (by norm_num) (by norm_num),
   percentile_mono finals (by norm_num) (by norm_num)⟩

end Theorems

end Opcvm
